import Mathlib

/-!
Verification of the Oelo Lights Home Assistant integration
(`custom_components/oelo_lights/light.py`, the most complete draft in the
repository, which is the one all claims reference).

Modelling conventions
=====================

* A `setPattern` URL is represented structurally as host, path and query
  parameters.  The Python code builds URLs with `urllib.parse.urlencode` and
  reads them back with `urllib.parse.urlparse` / `parse_qs`; on the values the
  code actually produces (fixed ASCII tokens, decimal integers, and
  comma-separated decimal integers, where `,` is percent-encoded and decoded
  back) this encode/decode pair is a bijection, so the structural
  representation is faithful.
* The `colors` query parameter is carried as its list of numeric tokens
  (`List Nat`).  The code only ever writes this parameter via
  `','.join(map(str, ints))` and only ever reads it via `split(',')` followed
  by `int(...)`; `str`/`int` and join/split are mutually inverse on such
  values, so the token-level view loses nothing.  Every token the code stores
  is produced by a `max(0, min(_, 255))` clamp, hence a `Nat`.
* Python floats: the only float arithmetic is
  `int(round(channel * (brightness / 255.0)))` with
  `0 ≤ channel, brightness ≤ 255`.  The exact rational `channel*brightness/255`
  is never a half-integer (2*channel*brightness = 255*(2k+1) is impossible:
  the right side is odd times odd), and the accumulated double-rounding error
  (≤ 255·2⁻⁵² for these magnitudes) is far below the minimal distance 1/510
  from the exact value to any half-integer, so Python's round-half-even equals
  the exact nearest integer, which over `Nat` is
  `(2*channel*brightness + 255) / 510` (floor division).
* `asyncio` concurrency: the entity runs on a single event loop, so the
  non-awaiting prefix of each coroutine executes atomically.  The debounce
  machinery (`_buffered_send_request` / `_debounce_and_send`) is modelled as a
  state machine over the three instance fields `_pending_command_url`,
  `_pending_command_future`, `_debounce_task`, with caller futures identified
  by their index in a burst of calls.
-/

namespace OeloLights

/-- Query parameter value of the `colors` key, as its comma-separated numeric
tokens (see the modelling conventions above). -/
abbrev Colors := List Nat

/-- Structural model of a `setPattern` (or status) URL: `host` is the netloc,
`path` the URL path, `colors` the `colors` query parameter when present
(`none` both when the key is absent and when its value is the empty string,
which the code treats alike via truthiness), and `params` the remaining query
parameters in insertion order. -/
structure Url where
  host : String
  path : String
  colors : Option Colors
  params : List (String × String)
  deriving DecidableEq, Repr

/-- Model of `parse_qs(urlparse(url).query).get(k, [default])[0]` restricted to
the non-`colors` parameters: the first value stored under key `k`. -/
def Url.getParam (u : Url) (k : String) : Option String :=
  (u.params.find? (fun p => p.1 == k)).map (fun p => p.2)

/-- Clamp an arbitrary Python int to a channel value:
`max(0, min(int(c), 255))` (light.py line 291 and elsewhere). -/
def clampChannel (c : Int) : Nat := (max 0 (min c 255)).toNat

/-- Clamp the requested brightness: `max(0, min(brightness_to_set, 255))`
(light.py line 283). -/
def clampBrightness (b : Int) : Nat := (max 0 (min b 255)).toNat

/-- Brightness scaling of one channel:
`max(0, min(int(round(c * brightness_factor)), 255))` with
`brightness_factor = brightness / 255.0` (light.py lines 284, 300, 623).
As justified in the module docstring, the float expression equals the exact
nearest integer to `c*brightness/255`, i.e. `(2*c*brightness + 255) / 510`
in `Nat` floor division; ties never occur. -/
def scaleChannel (c brightness : Nat) : Nat :=
  min ((2 * c * brightness + 255) / 510) 255

/-- Brightness scaling of an RGB triplet
(`tuple(max(0, min(int(round(c * brightness_factor)), 255)) for c in rgb)`,
light.py line 300). -/
def scaleRgb (rgb : Nat × Nat × Nat) (brightness : Nat) : Nat × Nat × Nat :=
  (scaleChannel rgb.1 brightness, scaleChannel rgb.2.1 brightness,
   scaleChannel rgb.2.2 brightness)

/-- URL of a solid-color `custom` command carrying the given (already scaled
or deliberately unscaled) triplet: light.py lines 301-307 (and the identical
dict at lines 383-388).  The Python dict order places `colors` between
`num_colors` and `direction`; the structural model carries `colors`
separately. -/
def colorCommandUrl (ip : String) (zone : Nat) (c : Nat × Nat × Nat) : Url :=
  { host := ip
    path := "/setPattern"
    colors := some [c.1, c.2.1, c.2.2]
    params := [("patternType", "custom"), ("num_zones", "1"),
               ("zones", toString zone), ("num_colors", "1"),
               ("direction", "F"), ("speed", "0"), ("gap", "0"),
               ("other", "0"), ("pause", "0")] }

/-- URL of the off command built by `async_turn_off` (light.py lines
467-472): pattern type `off`, colors `0,0,0`, fixed motion parameters. -/
def offCommandUrl (ip : String) (zone : Nat) : Url :=
  { host := ip
    path := "/setPattern"
    colors := some [0, 0, 0]
    params := [("patternType", "off"), ("num_zones", "1"),
               ("zones", toString zone), ("num_colors", "1"),
               ("direction", "F"), ("speed", "0"), ("gap", "0"),
               ("other", "0"), ("pause", "0")] }

/-- Model of `_extract_first_color_from_url` (light.py lines 534-557): when a
non-empty `colors` parameter with at least three tokens is present, the first
three tokens clamped by `max(0, min(int(c), 255))`; otherwise `None`.  At the
token level the `int()` parse always succeeds and `max 0` is the identity. -/
def extractFirstColorFromUrl (u : Url) : Option (Nat × Nat × Nat) :=
  match u.colors with
  | some (a :: b :: c :: _) => some (min a 255, min b 255, min c 255)
  | _ => none

/-- Model of `_adjust_colors_in_url` (light.py lines 597-642): scale every
numeric token of the `colors` parameter by the brightness factor; when the
parameter is absent or empty, return the URL with scheme/netloc normalised
(`urlunparse(parsed._replace(scheme='http', netloc=ip))`, a no-op here beyond
the host).  The `isdigit` filter is the identity on numeric tokens, and the
factor `brightness_to_set / 255.0` is already inside the `[0.0, 1.0]` clamp
of line 602 because every caller passes a clamped brightness. -/
def adjustColorsInUrl (ip : String) (u : Url) (brightness : Nat) : Url :=
  match u.colors with
  | none => { u with host := ip }
  | some [] => { u with host := ip }
  | some l => { u with host := ip,
                       colors := some (l.map (fun v => scaleChannel v brightness)) }

/-- The pattern catalog of `patterns.py`, verbatim.  Note that every template
is a relative string containing no `?`. -/
def pattern_commands : List (String × String) :=
  [("Valentines: My Heart Is Yours",
    "patternType=fade&num_zones=1&zones={zone}&num_colors=3&colors=255,10,228,255,255,255,255,0,0,&direction=R&speed=1&gap=0&other=0&pause=0"),
   ("Valentines: Cupids Twinkle",
    "patternType=twinkle&num_zones=1&zones={zone}&num_colors=2&colors=255,10,228,255,255,255,&direction=R&speed=1&gap=0&other=0&pause=0"),
   ("Valentines: Powerful Love",
    "patternType=stationary&num_zones=1&zones={zone}&num_colors=2&colors=180,10,255,255,0,0,&direction=R&speed=1&gap=0&other=0&pause=0"),
   ("Valentines: Adorations Smile",
    "patternType=stationary&num_zones=1&zones={zone}&num_colors=3&colors=255,10,228,255,0,76,255,143,238,&direction=R&speed=1&gap=0&other=0&pause=0"),
   ("Pride: March",
    "patternType=march&num_zones=1&zones={zone}&num_colors=18&colors=255,0,0,255,0,0,255,0,0,255,50,0,255,50,0,255,50,0,255,240,0,255,240,0,255,240,0,0,255,0,0,255,0,0,255,0,0,0,255,0,0,255,0,0,255,125,0,255,125,0,255,125,0,255,&direction=R&speed=1&gap=0&other=0&pause=0"),
   ("Pride: Split",
    "patternType=split&num_zones=1&zones={zone}&num_colors=6&colors=255,0,0,255,50,0,255,240,0,0,255,0,0,0,255,125,0,255,&direction=R&speed=1&gap=0&other=0&pause=0"),
   ("Christmas: Icicle Chase",
    "patternType=chase&num_zones=1&zones={zone}&num_colors=3&colors=255,255,255,0,183,245,0,73,245,&direction=R&speed=5&gap=0&other=0&pause=0"),
   ("Christmas: Icicle Stream",
    "patternType=river&num_zones=1&zones={zone}&num_colors=4&colors=255,255,255,0,204,255,0,70,255,0,70,255,&direction=R&speed=4&gap=0&other=0&pause=0"),
   ("Christmas: Icicle Shimmer",
    "patternType=twinkle&num_zones=1&zones={zone}&num_colors=4&colors=255,255,255,0,204,255,0,70,255,0,70,255,&direction=R&speed=4&gap=0&other=0&pause=0"),
   ("Christmas: Candy Cane Lane",
    "patternType=stationary&num_zones=1&zones={zone}&num_colors=6&colors=255,255,255,255,255,255,255,255,255,255,0,0,255,0,0,255,0,0,&direction=R&speed=4&gap=0&other=0&pause=0"),
   ("Christmas: Candy Cane Glimmer",
    "patternType=river&num_zones=1&zones={zone}&num_colors=4&colors=255,255,255,255,0,0,255,255,255,255,0,0,&direction=R&speed=20&gap=0&other=0&pause=0"),
   ("Christmas: Christmas Glow",
    "patternType=stationary&num_zones=1&zones={zone}&num_colors=6&colors=255,255,255,255,255,255,255,255,255,255,153,0,255,153,0,255,153,0,&direction=R&speed=2&gap=0&other=0&pause=0"),
   ("Christmas: The Grinch Stole Christmas",
    "patternType=twinkle&num_zones=1&zones={zone}&num_colors=8&colors=15,255,0,15,255,0,15,255,0,15,255,0,255,0,0,255,0,0,255,255,255,255,255,255,&direction=R&speed=2&gap=0&other=0&pause=0"),
   ("Christmas: Christmas at Oelo",
    "patternType=stationary&num_zones=1&zones={zone}&num_colors=7&colors=26,213,255,26,213,255,26,213,255,26,213,255,26,213,255,255,34,0,255,34,0,&direction=R&speed=2&gap=0&other=0&pause=0"),
   ("Christmas: Saturnalia Christmas",
    "patternType=stationary&num_zones=1&zones={zone}&num_colors=9&colors=255,255,255,255,255,255,255,255,255,0,255,47,0,255,47,0,255,47,255,0,0,255,0,0,255,0,0,&direction=R&speed=2&gap=0&other=0&pause=0"),
   ("Christmas: Dreaming of a White Christmas",
    "patternType=stationary&num_zones=1&zones={zone}&num_colors=5&colors=238,252,255,237,252,255,237,252,255,0,0,0,0,0,0,&direction=R&speed=10&gap=0&other=0&pause=0"),
   ("Christmas: Decorating the Christmas Tree",
    "patternType=stationary&num_zones=1&zones={zone}&num_colors=5&colors=0,219,11,0,219,11,0,219,11,255,153,0,255,255,255,&direction=R&speed=2&gap=0&other=0&pause=0")]

/-- Catalog lookup, `pattern_commands[effect_name]` guarded by membership. -/
def lookupPattern (name : String) : Option String :=
  (pattern_commands.find? (fun p => p.1 == name)).map (fun p => p.2)

/-- Model of `_get_base_effect_url` (light.py lines 500-531).  Every template
in `patterns.py` is a relative string with no `?`, so
`urlparse(template)` puts the entire template into `path` and leaves `query`
empty; `parse_qs('')` is `{}`, into which `zones` and `num_zones` are then
inserted (in that order) and re-encoded; `urlunparse` with a netloc prepends
`/` to the relative path.  The resulting URL therefore has the template text
(including its `colors=` segment) in the path and only `zones`/`num_zones` as
query parameters — in particular it has no `colors` query parameter. -/
def getBaseEffectUrl (ip : String) (zone : Nat) (effectName : String) : Option Url :=
  match lookupPattern effectName with
  | none => none
  | some template =>
      some { host := ip
             path := "/" ++ template
             colors := none
             params := [("zones", toString zone), ("num_zones", "1")] }

/-- The query component of a template string as `urlparse` sees it:
everything after the first `?`, empty when there is none. -/
def queryStringOf (t : String) : String :=
  match t.splitOn "?" with
  | [] => ""
  | _ :: rest => String.intercalate "?" rest

/-- First value of key `k` in a query string, as
`parse_qs(q).get(k, [""])[0]` behaves on the simple `k=v&...` strings
appearing here (no repeated `=`, no percent escapes in keys). -/
def parseQsFirst (q k : String) : Option String :=
  ((q.splitOn "&").filterMap (fun kv =>
    match kv.splitOn "=" with
    | [key, v] => if key == k then some v else none
    | _ => none)).head?

/-- The `patternType` a template exposes through
`parse_qs(urlparse(template).query).get("patternType", [""])[0]`
(light.py lines 365-367).  Because no template contains a `?`, this is the
default `""` for every catalog entry. -/
def templatePatternType (t : String) : String :=
  (parseQsFirst (queryStringOf t) "patternType").getD ""

/-- The reverse-mapping loop of light.py lines 362-374: first catalog entry
whose template's parsed `patternType` equals the given string. -/
def findEffectByPatternType (pt : String) : Option String :=
  (pattern_commands.find? (fun p => templatePatternType p.2 == pt)).map (fun p => p.1)

/-- Per-zone entity state: the mutable instance fields of `OeloLight` that the
claims are about (light.py lines 106-118).  `rgbColor` channels are `Nat`
because every assignment in the file stores a clamped `0..255` triple (the
best-effort restore path, which is outside the claims, coerces to the same
shape). -/
structure ZoneState where
  zone : Nat
  state : Bool
  brightness : Option Nat
  rgbColor : Option (Nat × Nat × Nat)
  intendedEffect : Option String
  lastSuccessfulCommand : Option Url
  available : Bool
  deriving DecidableEq, Repr

/-- The constructor state of a zone entity (light.py lines 108-118, with the
default `restored_last_command = None`). -/
def initState (zone : Nat) : ZoneState :=
  { zone := zone
    state := false
    brightness := some 255
    rgbColor := some (255, 255, 255)
    intendedEffect := none
    lastSuccessfulCommand := none
    available := true }

/-- A turn-on service call: the subset of
`{ATTR_BRIGHTNESS, ATTR_RGB_COLOR, ATTR_EFFECT}` kwargs present.
`rgbColor` keeps the raw list so that the length-3 format check of line 290
is modelled; channel and brightness values are Python ints. -/
structure TurnOnRequest where
  brightness : Option Int
  rgbColor : Option (List Int)
  effect : Option String
  deriving DecidableEq, Repr

/-- Outcome of the awaited buffered send as seen by `async_turn_on` /
`async_turn_off`: the future resolved `True`, resolved `False`, or was
cancelled because a newer call superseded this one (`asyncio.CancelledError`).
An unexpected exception takes the same availability path as `failure`
(light.py lines 434-439) and is folded into it. -/
inductive SendOutcome where
  | success
  | failure
  | superseded
  deriving DecidableEq, Repr

/-- Availability bookkeeping after the buffered send returns, for both
`async_turn_on` (lines 415-445) and `async_turn_off` (lines 474-497):
success marks the entity available when it was not, failure marks it
unavailable when it was, supersession (`CancelledError`) changes nothing.
When no URL was generated, `async_turn_on` lines 440-445 mark the entity
available. -/
def applySendOutcome (s : ZoneState) (url : Option Url) (o : SendOutcome) : ZoneState :=
  match url with
  | none => if !s.available then { s with available := true } else s
  | some _ =>
      match o with
      | .success => if !s.available then { s with available := true } else s
      | .failure => if s.available then { s with available := false } else s
      | .superseded => s

/-! The pure planning part of `async_turn_on` (light.py lines 258-413): from
the current state and the request, either an early return leaving the entity
untouched (`none`), or the optimistically updated state (including the
committed `last_successful_command`, lines 394-406) together with the URL
handed to the buffered send (`none` when no URL was generated).

Branch map:
* lines 262-264: unavailable and off — early return;
* lines 271-284: brightness defaulting and clamping;
* lines 286-312: explicit RGB branch (checked first; clears the effect);
* lines 314-333: explicit effect branch; an unknown effect name or a failed
  base-URL build returns before any state is touched;
* lines 335-392: replay branch (off, or brightness-only change): stored
  effect, else last successful command (with `patternType` dispatch and
  reverse effect lookup), else solid white fallback;
* otherwise (already on, no relevant kwargs): no URL, and the
  `last_successful_command` is cleared by the `elif` of lines 404-406.

The commit of lines 400-406 always makes `last_successful_command` equal to
the built base command (the inner difference check only gates the persistence
write, not the value).

Two small named helpers keep the statements readable: `requestedBrightness`
is the brightness defaulting and clamping of lines 271-284, and
`clampRgbRequest` is the `ATTR_RGB_COLOR` resolution of lines 286-298 (a
well-formed length-3 list clamped per channel; any other shape falls back to
`self._rgb_color or (255, 255, 255)`). -/

/-- Brightness defaulting and clamping of light.py lines 271-284. -/
def requestedBrightness (s : ZoneState) (req : TurnOnRequest) : Nat :=
  clampBrightness (match req.brightness with
                   | some b => b
                   | none => ((s.brightness.getD 255 : Nat) : Int))

/-- Resolution of the `ATTR_RGB_COLOR` kwarg of light.py lines 286-298. -/
def clampRgbRequest (s : ZoneState) (rgbInput : List Int) : Nat × Nat × Nat :=
  match rgbInput with
  | [r, g, b] => (clampChannel r, clampChannel g, clampChannel b)
  | _ => s.rgbColor.getD (255, 255, 255)

/-- Planning phase of `async_turn_on`; see the section comment above. -/
def turnOnPlan (ip : String) (s : ZoneState) (req : TurnOnRequest) :
    Option (ZoneState × Option Url) :=
  if !s.available && !s.state then
    none
  else
    let brightness_to_set : Nat := requestedBrightness s req
    match req.rgbColor with
    | some rgbInput =>
        let rgb_to_set : Nat × Nat × Nat := clampRgbRequest s rgbInput
        let url_to_send := colorCommandUrl ip s.zone (scaleRgb rgb_to_set brightness_to_set)
        let base := colorCommandUrl ip s.zone rgb_to_set
        some ({ s with state := true
                       brightness := some brightness_to_set
                       rgbColor := some rgb_to_set
                       intendedEffect := none
                       lastSuccessfulCommand := some base }, some url_to_send)
    | none =>
        match req.effect with
        | some selectedEffect =>
            (match getBaseEffectUrl ip s.zone selectedEffect with
             | none => none
             | some base =>
                 let rgb_to_set : Option (Nat × Nat × Nat) :=
                   match extractFirstColorFromUrl base with
                   | some c => some c
                   | none => s.rgbColor
                 let url_to_send := adjustColorsInUrl ip base brightness_to_set
                 some ({ s with state := true
                                brightness := some brightness_to_set
                                rgbColor := rgb_to_set
                                intendedEffect := some selectedEffect
                                lastSuccessfulCommand := some base }, some url_to_send))
        | none =>
            if !s.state || req.brightness.isSome then
              let step1 : Option String × Option (Nat × Nat × Nat) × Option Url :=
                match s.intendedEffect with
                | some e =>
                    (match getBaseEffectUrl ip s.zone e with
                     | some b =>
                         (some e,
                          (match extractFirstColorFromUrl b with
                           | some c => some c
                           | none => s.rgbColor), some b)
                     | none => (none, s.rgbColor, none))
                | none => (s.intendedEffect, s.rgbColor, none)
              let step2 : Option String × Option (Nat × Nat × Nat) × Option Url :=
                match step1.2.2, s.lastSuccessfulCommand with
                | none, some lsc =>
                    let pt := (lsc.getParam "patternType").getD ""
                    let rgb2 :=
                      match extractFirstColorFromUrl lsc with
                      | some c => some c
                      | none => step1.2.1
                    let effect2 :=
                      if pt == "custom" then none
                      else if pt != "off" then findEffectByPatternType pt
                      else step1.1
                    (effect2, rgb2, some lsc)
                | _, _ => step1
              match step2.2.2 with
              | some base =>
                  some ({ s with state := true
                                 brightness := some brightness_to_set
                                 rgbColor := step2.2.1
                                 intendedEffect := step2.1
                                 lastSuccessfulCommand := some base },
                        some (adjustColorsInUrl ip base brightness_to_set))
              | none =>
                  let base := colorCommandUrl ip s.zone (255, 255, 255)
                  some ({ s with state := true
                                 brightness := some brightness_to_set
                                 rgbColor := some (255, 255, 255)
                                 intendedEffect := none
                                 lastSuccessfulCommand := some base },
                        some (colorCommandUrl ip s.zone
                                (scaleRgb (255, 255, 255) brightness_to_set)))
            else
              some ({ s with state := true
                             brightness := some brightness_to_set
                             lastSuccessfulCommand := none }, none)

/-- Full `async_turn_on` for one resolved send outcome: the planning phase,
then the availability bookkeeping of lines 415-445.  The second component is
the URL handed to `_buffered_send_request` (`none` when nothing was sent). -/
def asyncTurnOn (ip : String) (s : ZoneState) (req : TurnOnRequest)
    (o : SendOutcome) : ZoneState × Option Url :=
  match turnOnPlan ip s req with
  | none => (s, none)
  | some (s1, u) => (applySendOutcome s1 u o, u)

/-- Model of `async_turn_off` (light.py lines 448-497): when the zone is
already off, both early returns (lines 452-457) leave the state untouched and
send nothing; otherwise the state optimistically goes off, the off command is
buffered, and availability follows the send outcome.
`last_successful_command` is never touched. -/
def asyncTurnOff (ip : String) (s : ZoneState) (o : SendOutcome) :
    ZoneState × Option Url :=
  if !s.state then
    (s, none)
  else
    let s1 := { s with state := false }
    let url := offCommandUrl ip s.zone
    (applySendOutcome s1 (some url) o, some url)

/-- One entry of the `getController` JSON array as the update handler reads
it: `item.get("num")`, `zone_data.get("pattern")`, plus the `colors` string
the device also reports (present in the payload, read nowhere in
`_handle_coordinator_update`).  A non-dict array item is skipped by the
`isinstance` check and is equivalent to `num = none`. -/
structure PollItem where
  num : Option Nat
  pattern : Option String
  colors : Option String
  deriving DecidableEq, Repr

/-- Model of `_handle_coordinator_update` (light.py lines 192-233).
`success` is `coordinator.last_update_success`; `data` the coordinator's
zone list (an empty list covers the falsy-`data` check of line 202).  The
handler: marks unavailable on a failed refresh, a missing zone entry or a
missing `pattern` key; otherwise marks available, derives power from
`pattern != "off"` (comparing against the pre-update state), and clears the
intended effect when the new state is off.  No other field is touched. -/
def handleCoordinatorUpdate (s : ZoneState) (success : Bool)
    (data : List PollItem) : ZoneState :=
  if !success then
    if s.available then { s with available := false } else s
  else
    match data.find? (fun item => item.num == some s.zone) with
    | none => { s with available := false }
    | some zoneData =>
        match zoneData.pattern with
        | none => { s with available := false }
        | some currentPattern =>
            let newState := currentPattern != "off"
            let stateChanged := s.state != newState
            let s1 := if s.available != true then { s with available := true } else s
            if s1.available && stateChanged then
              let s2 := { s1 with state := newState }
              if !newState then { s2 with intendedEffect := none } else s2
            else s1

/-- Observer `available` (light.py lines 136-138). -/
def obsAvailable (s : ZoneState) : Bool := s.available

/-- Observer `is_on` (light.py lines 140-142): the internal state when
available, otherwise `None`. -/
def obsIsOn (s : ZoneState) : Option Bool :=
  if obsAvailable s then some s.state else none

/-- Observer `brightness` (light.py lines 144-146). -/
def obsBrightness (s : ZoneState) : Option Nat :=
  if obsAvailable s then s.brightness else none

/-- Observer `rgb_color` (light.py lines 148-150). -/
def obsRgbColor (s : ZoneState) : Option (Nat × Nat × Nat) :=
  if obsAvailable s then s.rgbColor else none

/-- Observer `effect` (light.py lines 152-156): `None` when unavailable,
else the intended effect only while `is_on` is truthy. -/
def obsEffect (s : ZoneState) : Option String :=
  if !obsAvailable s then none
  else if s.state then s.intendedEffect else none

/-- The three debounce-related instance fields (light.py lines 119-121):
the single-slot pending URL, the pending caller future and the live debounce
task.  Caller futures and tasks are identified by the index of the
`_buffered_send_request` call that created them. -/
structure DebounceState where
  pendingUrl : Option Url
  pendingFuture : Option Nat
  debounceTask : Option Nat
  deriving DecidableEq, Repr

/-- Debounce fields as initialised in the constructor. -/
def initDebounce : DebounceState := ⟨none, none, none⟩

/-- The synchronous prefix of `_buffered_send_request` (light.py lines
645-661), which runs atomically on the event loop: cancel the previous
debounce task and the previous pending future, overwrite the single-slot
buffer, install this caller's fresh future and start a fresh debounce task.
Returns the new fields and the list (empty or singleton) of caller futures
cancelled by this call; a cancelled caller sees `asyncio.CancelledError`
from `await current_call_future` (lines 663-668), never a boolean.  The
cancelled task aborts inside `asyncio.sleep` (lines 674, 699-700) and
therefore never reaches `_send_request`. -/
def bufferedCall (st : DebounceState) (idx : Nat) (u : Url) :
    DebounceState × List Nat :=
  ({ pendingUrl := some u, pendingFuture := some idx, debounceTask := some idx },
   st.pendingFuture.toList)

/-- A burst of rapid `_buffered_send_request` calls, all issued before any
debounce timer fires (the claim's debounce window), indexed from `idx`. -/
def burst (st : DebounceState) (idx : Nat) : List Url → DebounceState × List Nat
  | [] => (st, [])
  | u :: rest =>
      let step := bufferedCall st idx u
      let next := burst step.1 (idx + 1) rest
      (next.1, step.2 ++ next.2)

/-- The surviving debounce task waking up (`_debounce_and_send`, light.py
lines 671-697): it re-reads `self._pending_command_url` and
`self._pending_command_future` at fire time, performs the single
`_send_request` with the buffered URL, and resolves the pending future with
the boolean send result.  Returns the list of outbound HTTP requests made and
the resolved `(caller, result)` pair. -/
def fireTimer (st : DebounceState) (sendResult : Bool) :
    List Url × Option (Nat × Bool) :=
  match st.pendingUrl, st.pendingFuture with
  | some u, some i => ([u], some (i, sendResult))
  | _, _ => ([], none)

/-- End-to-end behaviour of a rapid burst from the initial debounce state:
the outbound requests, the caller indices that received a cancellation
signal, and the caller that received the boolean result. -/
def rapidBurst (urls : List Url) (sendResult : Bool) :
    List Url × List Nat × Option (Nat × Bool) :=
  let b := burst initDebounce 0 urls
  let f := fireTimer b.1 sendResult
  (f.1, b.2, f.2)

/-- Availability bookkeeping touches only the `available` field. -/
theorem applySendOutcome_lastSuccessfulCommand (s : ZoneState) (u : Option Url)
    (o : SendOutcome) :
    (applySendOutcome s u o).lastSuccessfulCommand = s.lastSuccessfulCommand := by
  cases u <;> cases o <;> simp only [applySendOutcome] <;> split <;> rfl

/-- Availability bookkeeping touches only the `available` field. -/
theorem applySendOutcome_intendedEffect (s : ZoneState) (u : Option Url)
    (o : SendOutcome) :
    (applySendOutcome s u o).intendedEffect = s.intendedEffect := by
  cases u <;> cases o <;> simp only [applySendOutcome] <;> split <;> rfl

/-- Availability bookkeeping touches only the `available` field. -/
theorem applySendOutcome_rgbColor (s : ZoneState) (u : Option Url)
    (o : SendOutcome) :
    (applySendOutcome s u o).rgbColor = s.rgbColor := by
  cases u <;> cases o <;> simp only [applySendOutcome] <;> split <;> rfl

/-- Specification of `burst`: after a non-empty rapid burst starting from
debounce fields `st` with caller indices from `idx`, the single-slot buffer
holds the last URL, the pending future and live task belong to the last
caller, and the cancelled futures are the previously pending one followed by
every caller of the burst except the last. -/
theorem burst_spec (urls : List Url) (h : urls ≠ []) :
    ∀ (st : DebounceState) (idx : Nat),
      (burst st idx urls).1 =
        ⟨some (urls.getLast h), some (idx + (urls.length - 1)),
         some (idx + (urls.length - 1))⟩
      ∧ (burst st idx urls).2 =
          st.pendingFuture.toList ++ List.range' idx (urls.length - 1) := by
  induction urls with
  | nil => exact absurd rfl h
  | cons u rest ih =>
      intro st idx
      cases rest with
      | nil =>
          simp [burst, bufferedCall]
      | cons v rest' =>
          have hne : v :: rest' ≠ [] := List.cons_ne_nil _ _
          have hih := ih hne ⟨some u, some idx, some idx⟩ (idx + 1)
          have hidx : idx + 1 + ((v :: rest').length - 1)
              = idx + ((u :: v :: rest').length - 1) := by
            simp only [List.length_cons]
            omega
          have hlen : (u :: v :: rest').length - 1
              = ((v :: rest').length - 1) + 1 := by
            simp only [List.length_cons]
            omega
          constructor
          · show (burst ⟨some u, some idx, some idx⟩ (idx + 1) (v :: rest')).1 = _
            rw [hih.1, List.getLast_cons hne, ← hidx]
          · show (bufferedCall st idx u).2 ++
                (burst ⟨some u, some idx, some idx⟩ (idx + 1) (v :: rest')).2 = _
            rw [hih.2, hlen, List.range'_succ]
            rfl

/-- Claim C5: for all RGB triplets and brightness values, extracting the
first color from the URL built by the color-command builder for `(c, b)`
yields, per channel, `round(c_i * b/255)` clamped to `[0, 255]`
(`scaleChannel`, which is that rounded-and-clamped value; ties never occur,
see the docstring of `scaleChannel`).  The build-then-parse round trip holds
for all inputs, channel bounds included. -/
theorem claim_C5 (ip : String) (zone : Nat) (c : Nat × Nat × Nat) (b : Nat) :
    extractFirstColorFromUrl (colorCommandUrl ip zone (scaleRgb c b))
      = some (scaleRgb c b) := by
  simp [extractFirstColorFromUrl, colorCommandUrl, scaleRgb, scaleChannel,
        Nat.min_assoc]

/-- Claim C8: whenever `available` is false, the externally observed power,
brightness, RGB color and effect all read as `None`, while the internal
fields (which the pure observer functions do not touch) persist unchanged. -/
theorem claim_C8 (s : ZoneState) (h : s.available = false) :
    obsIsOn s = none ∧ obsBrightness s = none ∧ obsRgbColor s = none
    ∧ obsEffect s = none := by
  simp [obsIsOn, obsBrightness, obsRgbColor, obsEffect, obsAvailable, h]

/-- Witness for C8 at a concrete unavailable state with populated internal
fields. -/
theorem claim_C8_witness :
    obsIsOn ⟨1, true, some 10, some (1, 2, 3), some "Pride: March", none, false⟩ = none
    ∧ obsBrightness ⟨1, true, some 10, some (1, 2, 3), some "Pride: March", none, false⟩ = none
    ∧ obsRgbColor ⟨1, true, some 10, some (1, 2, 3), some "Pride: March", none, false⟩ = none
    ∧ obsEffect ⟨1, true, some 10, some (1, 2, 3), some "Pride: March", none, false⟩ = none :=
  claim_C8 ⟨1, true, some 10, some (1, 2, 3), some "Pride: March", none, false⟩ rfl

/-- Claim C2, amended: `last_successful_command` is committed during the
optimistic update, before the buffered send, and the send outcome has no
influence on it — after a failed or superseded send it holds the newly built
base descriptor, not the pre-attempt value. -/
theorem claim_C2 (ip : String) (s : ZoneState) (req : TurnOnRequest)
    (o o' : SendOutcome) :
    (asyncTurnOn ip s req o).1.lastSuccessfulCommand
      = (asyncTurnOn ip s req o').1.lastSuccessfulCommand := by
  unfold asyncTurnOn
  rcases h : turnOnPlan ip s req with _ | ⟨s1, u⟩
  · rfl
  · simp only [applySendOutcome_lastSuccessfulCommand]

/-- Counterexample to claim C2 as stated: a turn-on with an explicit RGB
whose send fails still replaces `last_successful_command` with the new base
descriptor, so it is not "unchanged from its pre-attempt value" on a failed
send. -/
theorem claim_C2_counterexample :
    (asyncTurnOn "1.2.3.4"
        { initState 1 with lastSuccessfulCommand := some (offCommandUrl "1.2.3.4" 1) }
        ⟨none, some [10, 20, 30], none⟩ SendOutcome.failure).1.lastSuccessfulCommand
      = some (colorCommandUrl "1.2.3.4" 1 (10, 20, 30))
    ∧ some (colorCommandUrl "1.2.3.4" 1 (10, 20, 30))
      ≠ some (offCommandUrl "1.2.3.4" 1) :=
  ⟨rfl, by decide⟩

/-- Claim C3, amended: the coordinator-update handler never reads the poll's
`colors` field at all — a poll (successful or not, zone on or off, colors
well-formed or not) leaves the zone's `rgb` exactly as it was. -/
theorem claim_C3 (s : ZoneState) (success : Bool) (data : List PollItem) :
    (handleCoordinatorUpdate s success data).rgbColor = s.rgbColor := by
  unfold handleCoordinatorUpdate
  dsimp only
  (repeat' split) <;> rfl

/-- Counterexample to claim C3 as stated: a successful poll reporting the
zone on with a perfectly parseable `colors` string of `255,255,255` leaves
the previously known `rgb` of `(1, 2, 3)` untouched instead of overwriting
it with the first triplet. -/
theorem claim_C3_counterexample :
    (handleCoordinatorUpdate { initState 1 with rgbColor := some (1, 2, 3) } true
        [⟨some 1, some "chase", some "255,255,255"⟩]).rgbColor = some (1, 2, 3)
    ∧ ((1, 2, 3) : Nat × Nat × Nat) ≠ (255, 255, 255) :=
  ⟨rfl, by decide⟩

/-- Claim C7, amended: in an available, powered-off state the observed
effect is none and the observed power is off, but the observed color is the
internally retained last color — it is not forced to pure black. -/
theorem claim_C7 (s : ZoneState) (hoff : s.state = false) (hav : s.available = true) :
    obsEffect s = none ∧ obsIsOn s = some false ∧ obsRgbColor s = s.rgbColor := by
  simp [obsEffect, obsIsOn, obsRgbColor, obsAvailable, hoff, hav]

/-- Witness for C7 at the constructor state (off, available, white). -/
theorem claim_C7_witness :
    obsEffect (initState 1) = none ∧ obsIsOn (initState 1) = some false
    ∧ obsRgbColor (initState 1) = (initState 1).rgbColor :=
  claim_C7 (initState 1) rfl rfl

/-- Counterexample to claim C7 as stated: the constructor state is off and
available, yet the observed color is the retained white `(255, 255, 255)`,
not pure black `(0, 0, 0)`. -/
theorem claim_C7_counterexample :
    obsIsOn (initState 1) = some false ∧ obsAvailable (initState 1) = true
    ∧ obsRgbColor (initState 1) = some (255, 255, 255)
    ∧ some ((255 : Nat), (255 : Nat), (255 : Nat)) ≠ some ((0 : Nat), 0, 0) :=
  ⟨rfl, rfl, rfl, by decide⟩

/-- Claim C1, amended: when a turn-on request carries both an explicit RGB
color and an explicit effect name, the explicit RGB takes precedence — the
resolved command is the color command built from the clamped RGB at the
requested brightness, and the effect intent is cleared (the `ATTR_RGB_COLOR`
branch is checked before the `ATTR_EFFECT` branch and never consults the
effect). -/
theorem claim_C1 (ip : String) (s : ZoneState) (req : TurnOnRequest)
    (r g b : Int) (e : String) (o : SendOutcome)
    (hrgb : req.rgbColor = some [r, g, b]) (heff : req.effect = some e)
    (hav : s.available = true) :
    (asyncTurnOn ip s req o).2
      = some (colorCommandUrl ip s.zone
          (scaleRgb (clampRgbRequest s [r, g, b]) (requestedBrightness s req)))
    ∧ (asyncTurnOn ip s req o).1.intendedEffect = none := by
  unfold asyncTurnOn turnOnPlan
  rw [hrgb, hav]
  simp [applySendOutcome_intendedEffect]

/-- Counterexample to claim C1 as stated: with both an explicit RGB
`(10, 20, 30)` and the valid explicit effect `Christmas: Icicle Chase` in
the same request, the resolved command is the `custom` color command, not
the effect's command, and the effect intent (not the RGB intent) is
cleared. -/
theorem claim_C1_counterexample :
    (asyncTurnOn "1.2.3.4" (initState 1)
        ⟨none, some [10, 20, 30], some "Christmas: Icicle Chase"⟩
        SendOutcome.success).1.intendedEffect = none
    ∧ ((asyncTurnOn "1.2.3.4" (initState 1)
        ⟨none, some [10, 20, 30], some "Christmas: Icicle Chase"⟩
        SendOutcome.success).2.bind (fun u => u.getParam "patternType"))
      = some "custom"
    ∧ (getBaseEffectUrl "1.2.3.4" 1 "Christmas: Icicle Chase").isSome = true
    ∧ (asyncTurnOn "1.2.3.4" (initState 1)
        ⟨none, some [10, 20, 30], some "Christmas: Icicle Chase"⟩
        SendOutcome.success).2
      ≠ ((getBaseEffectUrl "1.2.3.4" 1 "Christmas: Icicle Chase").map
          (fun u => adjustColorsInUrl "1.2.3.4" u 255)) :=
  ⟨rfl, rfl, rfl, by decide⟩

/-- Witness for the amended C1 at a concrete request carrying brightness,
RGB and effect at once. -/
theorem claim_C1_witness :
    (asyncTurnOn "1.2.3.4" (initState 1)
        ⟨some 128, some [10, 20, 30], some "Christmas: Icicle Chase"⟩
        SendOutcome.success).2
      = some (colorCommandUrl "1.2.3.4" (initState 1).zone
          (scaleRgb (clampRgbRequest (initState 1) [10, 20, 30])
            (requestedBrightness (initState 1)
              ⟨some 128, some [10, 20, 30], some "Christmas: Icicle Chase"⟩)))
    ∧ (asyncTurnOn "1.2.3.4" (initState 1)
        ⟨some 128, some [10, 20, 30], some "Christmas: Icicle Chase"⟩
        SendOutcome.success).1.intendedEffect = none :=
  claim_C1 "1.2.3.4" (initState 1)
    ⟨some 128, some [10, 20, 30], some "Christmas: Icicle Chase"⟩
    10 20 30 "Christmas: Icicle Chase" SendOutcome.success rfl rfl rfl

/-- Claim C6, amended: whenever the zone is on, turn-off sends exactly the
off command — pattern type `off`, colors `0,0,0` — and leaves
`last_successful_command` untouched (so a bare subsequent turn-on can replay
the pre-off look); when the zone is already off, both early returns send
nothing and change nothing. -/
theorem claim_C6 (ip : String) (s : ZoneState) (o : SendOutcome)
    (h : s.state = true) :
    (asyncTurnOff ip s o).2 = some (offCommandUrl ip s.zone)
    ∧ (offCommandUrl ip s.zone).getParam "patternType" = some "off"
    ∧ (offCommandUrl ip s.zone).colors = some [0, 0, 0]
    ∧ (asyncTurnOff ip s o).1.lastSuccessfulCommand = s.lastSuccessfulCommand := by
  have h2 : asyncTurnOff ip s o
      = (applySendOutcome { s with state := false }
          (some (offCommandUrl ip s.zone)) o, some (offCommandUrl ip s.zone)) := by
    unfold asyncTurnOff
    rw [h]
    rfl
  refine ⟨by rw [h2], rfl, rfl, ?_⟩
  rw [h2]
  exact applySendOutcome_lastSuccessfulCommand _ _ _

/-- Counterexample to claim C6 as stated: in the (reachable, constructor)
state where the zone is already off, `async_turn_off` returns early — no off
command is sent for that prior state, so turn-off does not "always" send the
off command regardless of prior state. -/
theorem claim_C6_counterexample :
    (asyncTurnOff "1.2.3.4" (initState 1) SendOutcome.success).2 = none
    ∧ (asyncTurnOff "1.2.3.4" (initState 1) SendOutcome.success).1 = initState 1 :=
  ⟨rfl, rfl⟩

/-- Concrete powered-on state (with a stored last successful command) used
by the C6 witness. -/
def c6OnState : ZoneState :=
  { initState 1 with
    state := true
    lastSuccessfulCommand := some (colorCommandUrl "1.2.3.4" 1 (1, 2, 3)) }

/-- Witness for the amended C6 at a concrete powered-on state with a stored
last successful command, under a failing send. -/
theorem claim_C6_witness :
    (asyncTurnOff "1.2.3.4" c6OnState SendOutcome.failure).2
      = some (offCommandUrl "1.2.3.4" c6OnState.zone)
    ∧ (offCommandUrl "1.2.3.4" c6OnState.zone).getParam "patternType" = some "off"
    ∧ (offCommandUrl "1.2.3.4" c6OnState.zone).colors = some [0, 0, 0]
    ∧ (asyncTurnOff "1.2.3.4" c6OnState SendOutcome.failure).1.lastSuccessfulCommand
      = c6OnState.lastSuccessfulCommand :=
  claim_C6 "1.2.3.4" c6OnState SendOutcome.failure rfl

/-- Claim C9: a successful poll whose entry for the zone reports pattern
`"off"` sets that zone's power to false, whatever the prior (possibly
optimistic) state was. -/
theorem claim_C9 (s : ZoneState) (data : List PollItem) (zd : PollItem)
    (hf : data.find? (fun item => item.num == some s.zone) = some zd)
    (hp : zd.pattern = some "off") :
    (handleCoordinatorUpdate s true data).state = false := by
  obtain ⟨z, st, br, rgb, eff, lsc, av⟩ := s
  cases st <;> cases av <;>
    simp [handleCoordinatorUpdate, hf, hp]

/-- Witness for C9: an optimistically-on, unavailable zone goes off after a
poll reporting pattern `off`. -/
theorem claim_C9_witness :
    (handleCoordinatorUpdate { initState 1 with state := true, available := false }
      true [⟨some 1, some "off", some "0,0,0"⟩]).state = false :=
  claim_C9 { initState 1 with state := true, available := false }
    [⟨some 1, some "off", some "0,0,0"⟩] ⟨some 1, some "off", some "0,0,0"⟩ rfl rfl

/-- Claim C10, amended: a turn-on request whose effect name is not in the
pattern catalog and which carries no explicit RGB color is a no-op — no
command is built or sent and the state is returned unchanged (no exception
escapes; the handler just logs and returns).  The amendment restricts the
claim to requests without an RGB color: an explicit RGB in the same request
is processed by the earlier RGB branch, which never consults the invalid
effect name (see the counterexample). -/
theorem claim_C10 (ip : String) (s : ZoneState) (req : TurnOnRequest)
    (e : String) (o : SendOutcome) (hrgb : req.rgbColor = none)
    (heff : req.effect = some e) (hcat : lookupPattern e = none) :
    asyncTurnOn ip s req o = (s, none) := by
  cases hc : (!s.available && !s.state) <;>
    simp [asyncTurnOn, turnOnPlan, getBaseEffectUrl, hrgb, heff, hcat, hc]

/-- Counterexample to claim C10 as stated: a request with the invalid effect
name `Solid Gold` but also an explicit RGB color is not a no-op — the RGB
branch builds and sends a command and mutates the state. -/
theorem claim_C10_counterexample :
    lookupPattern "Solid Gold" = none
    ∧ (asyncTurnOn "1.2.3.4"
        { initState 1 with state := true, intendedEffect := some "Pride: March" }
        ⟨none, some [10, 20, 30], some "Solid Gold"⟩ SendOutcome.success).2 ≠ none
    ∧ (asyncTurnOn "1.2.3.4"
        { initState 1 with state := true, intendedEffect := some "Pride: March" }
        ⟨none, some [10, 20, 30], some "Solid Gold"⟩ SendOutcome.success).1
      ≠ { initState 1 with state := true, intendedEffect := some "Pride: March" } := by
  refine ⟨by decide, by decide, by decide⟩

/-- Witness for the amended C10 at a concrete invalid-effect request without
an RGB color. -/
theorem claim_C10_witness :
    asyncTurnOn "1.2.3.4" (initState 2) ⟨some 50, none, some "Solid Gold"⟩
      SendOutcome.success = (initState 2, none) :=
  claim_C10 "1.2.3.4" (initState 2) ⟨some 50, none, some "Solid Gold"⟩
    "Solid Gold" SendOutcome.success rfl rfl (by decide)

/-- Claim C4: a rapid burst of `N` buffered send requests to one zone, all
issued within the debounce window, results in exactly one outbound HTTP
request carrying the last buffered URL (the surviving debounce task re-reads
the single-slot buffer at fire time); callers `0..N-2` have their futures
cancelled (receiving `asyncio.CancelledError`, never a boolean result) and
only caller `N-1` receives the boolean send result; and a superseded send
outcome mutates neither availability nor any other state field. -/
theorem claim_C4 (urls : List Url) (sendResult : Bool) (h : urls ≠ []) :
    (rapidBurst urls sendResult).1 = [urls.getLast h]
    ∧ (rapidBurst urls sendResult).2.1 = List.range (urls.length - 1)
    ∧ (rapidBurst urls sendResult).2.2 = some (urls.length - 1, sendResult)
    ∧ ∀ (s : ZoneState) (u : Url),
        applySendOutcome s (some u) SendOutcome.superseded = s := by
  have hb := burst_spec urls h initDebounce 0
  refine ⟨?_, ?_, ?_, fun s u => rfl⟩
  · show (fireTimer (burst initDebounce 0 urls).1 sendResult).1 = _
    rw [hb.1]
    rfl
  · show (burst initDebounce 0 urls).2 = _
    rw [hb.2, List.range_eq_range']
    rfl
  · show (fireTimer (burst initDebounce 0 urls).1 sendResult).2 = _
    rw [hb.1]
    simp [fireTimer]

/-- Concrete URLs for the C4 witness burst. -/
def c4BurstUrls : List Url :=
  [colorCommandUrl "1.2.3.4" 1 (10, 10, 10),
   colorCommandUrl "1.2.3.4" 1 (20, 20, 20),
   colorCommandUrl "1.2.3.4" 1 (30, 30, 30)]

/-- Witness for C4: three rapid calls produce one send of the third URL,
cancellation signals for callers 0 and 1, and the boolean result for
caller 2. -/
theorem claim_C4_witness :
    (rapidBurst c4BurstUrls true).1 = [colorCommandUrl "1.2.3.4" 1 (30, 30, 30)]
    ∧ (rapidBurst c4BurstUrls true).2.1 = [0, 1]
    ∧ (rapidBurst c4BurstUrls true).2.2 = some (2, true) := by
  obtain ⟨h1, h2, h3, _⟩ := claim_C4 c4BurstUrls true (by simp [c4BurstUrls])
  exact ⟨h1, h2, h3⟩

end OeloLights
